import Mathlib

/-!
# Verification of the adventuregame elements module

A shallow embedding of `adventuregame/elements.py` (the data/rules engine of a
room-based dungeon-crawl game) together with proofs about the behaviour of its
inventory store, door store, character arithmetic, creature-to-corpse
conversion and room-graph movement.

Python dictionaries are modelled as insertion-ordered association lists with
unique keys; raising an exception is modelled by returning `Except.error`, and
the error-signal taxonomy distinguishes the exception classes the Python code
can raise.
-/

set_option autoImplicit false

namespace AdventureGame

/-- The error-signal taxonomy.  The module `adventuregame.exceptions` is not
part of the provided sources; modelled from the spec: an internal-consistency
failure (`Internal_Exception`) carries a message, and a command failure
(`Bad_Command_Exception`) carries a command name and a message.  The remaining
constructors model Python built-in signals that the code in `elements.py` can
raise: `keyError` for a missing dictionary key; `unboundLocal` for reading a
local variable no branch has assigned; `attributeError` for attribute access
on `None`; `valueError` for a failing tuple unpacking. -/
inductive Exc where
  | internal (msg : String)
  | badCommand (command : String) (msg : String)
  | keyError (key : String)
  | unboundLocal (name : String)
  | attributeError (attr : String)
  | valueError (msg : String)
deriving DecidableEq, Repr

/-! ## Python dict model

An insertion-ordered association list.  `dictLookup` is `d[k]` (as an
`Option`), `dictSet` is `d[k] = v` (update in place if the key is present,
append otherwise), `dictErase` is `del d[k]` with the key present. -/

/-- Lookup of a key in a Python dict, `none` when absent. -/
def dictLookup {β : Type} : List (String × β) → String → Option β
  | [], _ => none
  | (k', v) :: rest, k => if k' = k then some v else dictLookup rest k

/-- Assignment `d[k] = v` on a Python dict: replace in place when the key is
present, append otherwise. -/
def dictSet {β : Type} : List (String × β) → String → β → List (String × β)
  | [], k, v => [(k, v)]
  | (k', v') :: rest, k, v =>
      if k' = k then (k, v) :: rest else (k', v') :: dictSet rest k v

/-- The effect of `del d[k]`: remove the entry with key `k`. -/
def dictErase {β : Type} : List (String × β) → String → List (String × β)
  | [], _ => []
  | (k', v') :: rest, k => if k' = k then rest else (k', v') :: dictErase rest k

/-- The list of keys of a dict. -/
def dictKeys {β : Type} (d : List (String × β)) : List String := d.map (·.1)

theorem dictLookup_set_self {β : Type} (d : List (String × β)) (k : String) (v : β) :
    dictLookup (dictSet d k v) k = some v := by
  induction d with
  | nil => simp [dictSet, dictLookup]
  | cons e rest ih =>
      obtain ⟨k', v'⟩ := e
      by_cases h : k' = k <;> simp [dictSet, dictLookup, h, ih]

theorem dictLookup_set_other {β : Type} (d : List (String × β)) (k k₀ : String) (v : β)
    (h : k₀ ≠ k) : dictLookup (dictSet d k v) k₀ = dictLookup d k₀ := by
  induction d with
  | nil => simp [dictSet, dictLookup, Ne.symm h]
  | cons e rest ih =>
      obtain ⟨k', v'⟩ := e
      by_cases hk : k' = k
      · subst hk
        simp [dictSet, dictLookup, Ne.symm h]
      · by_cases hk₀ : k' = k₀ <;> simp [dictSet, dictLookup, hk, hk₀, h, ih]

theorem dictLookup_eq_none_of_not_mem_keys {β : Type} (d : List (String × β)) (k : String)
    (h : k ∉ dictKeys d) : dictLookup d k = none := by
  induction d with
  | nil => rfl
  | cons e rest ih =>
      obtain ⟨k', v'⟩ := e
      simp only [dictKeys, List.map_cons, List.mem_cons, not_or] at h
      simp only [dictLookup, if_neg (Ne.symm h.1)]
      exact ih h.2

theorem dictLookup_erase_self {β : Type} (d : List (String × β)) (k : String)
    (hnd : (dictKeys d).Nodup) : dictLookup (dictErase d k) k = none := by
  induction d with
  | nil => rfl
  | cons e rest ih =>
      obtain ⟨k', v'⟩ := e
      simp only [dictKeys, List.map_cons, List.nodup_cons] at hnd
      by_cases h : k' = k
      · subst h
        simp only [dictErase, if_pos rfl]
        exact dictLookup_eq_none_of_not_mem_keys rest k' hnd.1
      · simp [dictErase, dictLookup, h, ih hnd.2]

theorem dictLookup_isSome_iff {β : Type} (d : List (String × β)) (k : String) :
    (dictLookup d k).isSome = true ↔ ∃ e ∈ d, e.1 = k := by
  induction d with
  | nil => simp [dictLookup]
  | cons e rest ih =>
      obtain ⟨k', v'⟩ := e
      by_cases h : k' = k <;> simp [dictLookup, h, ih]

theorem dictKeys_set {β : Type} (d : List (String × β)) (k : String) (v : β)
    (h : (dictLookup d k).isSome = true) : dictKeys (dictSet d k v) = dictKeys d := by
  induction d with
  | nil => simp [dictLookup] at h
  | cons e rest ih =>
      obtain ⟨k', v'⟩ := e
      by_cases hk : k' = k
      · subst hk
        simp [dictSet, dictKeys]
      · simp only [dictLookup, if_neg hk] at h
        simp [dictSet, dictKeys, hk] at ih ⊢
        exact ih h

/-! ## Items (`Item` and its subclasses)

An `Item` is an `Ini_Entry` subclass; the fields below are the `__slots__`
attributes used by the verified claims (`weight`/`value` can be floating point
in the source and are omitted along with the usability flags, none of which
any claim touches). -/

/-- The `Item` configuration entry: internal name (the unique key), title,
description, the `item_type` variant tag, attack bonus and damage expression
of weapons and wands. -/
structure Item where
  internal_name : String
  title : String
  description : String
  item_type : String
  attack_bonus : Int
  damage : String
deriving DecidableEq, Repr

/-! ## `Items_Multi_State` — the multi-quantity item store

The internal dict maps an internal name to a pair of a quantity and the
`Item`; quantities are Python ints, hence `Int`. -/

/-- The `_contents` dict of an `Items_Multi_State` (inventory / container
collection): internal name → (quantity, item). -/
abbrev MultiContents := List (String × (Int × Item))

namespace Items_Multi_State

/-- `Items_Multi_State.contains`: tests whether any *stored value* has the
given internal name (the source iterates `self._contents.values()`, not the
keys). -/
def contains (m : MultiContents) (item_internal_name : String) : Bool :=
  m.any (fun e => e.2.2.internal_name = item_internal_name)

/-- `Items_Multi_State.get`: index the internal dict, `KeyError` when the key
is absent. -/
def get (m : MultiContents) (item_internal_name : String) : Except Exc (Int × Item) :=
  match dictLookup m item_internal_name with
  | some qi => .ok qi
  | none => .error (.keyError item_internal_name)

/-- `Items_Multi_State.set`: store quantity and item under the internal name. -/
def set (m : MultiContents) (item_internal_name : String) (item_qty : Int) (item : Item) :
    MultiContents :=
  dictSet m item_internal_name (item_qty, item)

/-- `State.delete` as inherited: `del self._contents[name]`, `KeyError` when
absent. -/
def delete (m : MultiContents) (item_internal_name : String) : Except Exc MultiContents :=
  match dictLookup m item_internal_name with
  | some _ => .ok (dictErase m item_internal_name)
  | none => .error (.keyError item_internal_name)

/-- `Items_Multi_State.add_one`: when `contains` holds, re-store the entry at
the key with its quantity incremented (a `KeyError` would escape if a value
carried the name but the key were absent); otherwise store the item with
quantity 1. -/
def add_one (m : MultiContents) (item_internal_name : String) (item : Item) :
    Except Exc MultiContents :=
  if contains m item_internal_name then
    match dictLookup m item_internal_name with
    | some (q, it) => .ok (dictSet m item_internal_name (q + 1, it))
    | none => .error (.keyError item_internal_name)
  else
    .ok (dictSet m item_internal_name (1, item))

/-- `Items_Multi_State.remove_one`: `KeyError` when the key is absent; delete
the entry outright when the stored quantity is 1; otherwise decrement. -/
def remove_one (m : MultiContents) (item_internal_name : String) : Except Exc MultiContents :=
  match dictLookup m item_internal_name with
  | none => .error (.keyError item_internal_name)
  | some (q, it) =>
      if q = 1 then .ok (dictErase m item_internal_name)
      else .ok (dictSet m item_internal_name (q - 1, it))

end Items_Multi_State

/-- Well-formedness of a multi-quantity store as the program maintains it:
every entry is keyed by the internal name of the item it stores, and the keys
are distinct (automatic for a Python dict). -/
def wfMulti (m : MultiContents) : Prop :=
  (∀ e ∈ m, e.1 = e.2.2.internal_name) ∧ (dictKeys m).Nodup

instance : DecidablePred wfMulti := fun _ =>
  inferInstanceAs (Decidable (_ ∧ _))

/-- In a well-formed store, the value-scanning `contains` test agrees with key
membership. -/
theorem contains_eq_lookup_isSome (m : MultiContents) (name : String) (hwf : wfMulti m) :
    Items_Multi_State.contains m name = (dictLookup m name).isSome := by
  rcases hwf with ⟨hkey, -⟩
  induction m with
  | nil => rfl
  | cons e rest ih =>
      obtain ⟨k, q, it⟩ := e
      have hk : k = it.internal_name := hkey (k, q, it) (List.mem_cons_self _ _)
      by_cases h : k = name
      · simp [Items_Multi_State.contains, dictLookup, h, hk.symm.trans h]
      · have hne : ¬it.internal_name = name := fun hh => h (hk.trans hh)
        simp only [Items_Multi_State.contains, List.any_cons, dictLookup, if_neg h]
        simp only [hne, decide_False, Bool.false_or]
        exact ih (fun e he => hkey e (List.mem_cons_of_mem _ he))

/-! ## Character inventory operations

`Character.pick_up_item`, `Character.drop_item` and `Character.item_have_qty`
read and mutate only `self.inventory` (an `Items_Multi_State`); they are
modelled as functions on that store. -/

namespace Character

/-- `Character.item_have_qty`: 0 when the inventory's value-scanning
`contains` test fails, otherwise the quantity from `inventory.get` (which
raises `KeyError` when the key itself is absent). -/
def item_have_qty (inv : MultiContents) (item : Item) : Except Exc Int :=
  if Items_Multi_State.contains inv item.internal_name then
    match dictLookup inv item.internal_name with
    | some (q, _) => .ok q
    | none => .error (.keyError item.internal_name)
  else
    .ok 0

/-- `Character.pick_up_item`: with quantity 1 (the Python default) delegate to
`inventory.add_one`; with any other quantity store `qty + have_qty` for the
item. -/
def pick_up_item (inv : MultiContents) (item : Item) (qty : Int) :
    Except Exc MultiContents :=
  match item_have_qty inv item with
  | .error e => .error e
  | .ok have_qty =>
      if qty = 1 then
        Items_Multi_State.add_one inv item.internal_name item
      else
        .ok (Items_Multi_State.set inv item.internal_name (qty + have_qty) item)

/-- `Character.drop_item`: `KeyError` when nothing is held, delete the entry
when the requested quantity equals the held quantity, otherwise store
`have_qty - qty` with no upper-bound check. -/
def drop_item (inv : MultiContents) (item : Item) (qty : Int) :
    Except Exc MultiContents :=
  match item_have_qty inv item with
  | .error e => .error e
  | .ok have_qty =>
      if have_qty = 0 then
        .error (.keyError item.internal_name)
      else if have_qty = qty then
        Items_Multi_State.delete inv item.internal_name
      else
        .ok (Items_Multi_State.set inv item.internal_name (have_qty - qty) item)

end Character

/-! ## Ability scores, equipment and Character combat arithmetic -/

/-- The four character classes. -/
inductive CharClass where
  | warrior | thief | priest | mage
deriving DecidableEq, Repr

/-- The six ability score names. -/
inductive StatName where
  | strength | dexterity | constitution | intelligence | wisdom | charisma
deriving DecidableEq, Repr

/-- The six integer ability scores of an `Ability_Scores` aggregate. -/
structure AbilityScores where
  strength : Int
  dexterity : Int
  constitution : Int
  intelligence : Int
  wisdom : Int
  charisma : Int
deriving DecidableEq, Repr

/-- `Ability_Scores._stat_mod`: `math.floor((score - 10) / 2)`; Python's true
division followed by `floor` is floor division, `Int.fdiv`. -/
def statMod (score : Int) : Int := Int.fdiv (score - 10) 2

/-- The `{stat}_mod` property for a named stat. -/
def AbilityScores.mod (a : AbilityScores) : StatName → Int
  | .strength => statMod a.strength
  | .dexterity => statMod a.dexterity
  | .constitution => statMod a.constitution
  | .intelligence => statMod a.intelligence
  | .wisdom => statMod a.wisdom
  | .charisma => statMod a.charisma

/-- The `Equipment` aggregate: the armor and shield slots play no part in any
verified claim and are omitted; a slot holds `none` when nothing is equipped. -/
structure Equipment where
  weapon : Option Item
  wand : Option Item
deriving DecidableEq, Repr

/-- `Character._attack_or_damage_stat_dependency`: strength for Warriors,
Priests and Mages with a weapon equipped; dexterity for Thieves; by exclusion
intelligence (a Mage with a wand). -/
def attackOrDamageStatDependency (cls : CharClass) (eqp : Equipment) : StatName :=
  if cls = .warrior ∨ cls = .priest ∨ (cls = .mage ∧ eqp.weapon.isSome) then
    .strength
  else if cls = .thief then
    .dexterity
  else
    .intelligence

/-- `Character.attack_bonus` (the character-level property): raises an
`Internal_Exception` unless a weapon is equipped or the class is Mage with a
wand equipped; for a Mage the base bonus comes from the wand if one is
equipped and the weapon otherwise, for the other classes always from the
weapon; the relevant stat modifier is added.  The `attributeError` branches
model Python reading `.attack_bonus` off `None` and are unreachable past the
guard. -/
def characterAttackBonus (cls : CharClass) (scores : AbilityScores) (eqp : Equipment) :
    Except Exc Int :=
  if ¬(eqp.weapon.isSome ∨ (cls = .mage ∧ eqp.wand.isSome)) then
    .error (.internal ("The character does not have a weapon equipped; " ++
      "no valid value for attack_bonus can be computed."))
  else
    let stat_dependency := attackOrDamageStatDependency cls eqp
    let base_attack_bonus : Except Exc Int :=
      if cls = .mage then
        match eqp.wand, eqp.weapon with
        | some wd, _ => .ok wd.attack_bonus
        | none, some wp => .ok wp.attack_bonus
        | none, none => .error (.attributeError "attack_bonus")
      else
        match eqp.weapon with
        | some wp => .ok wp.attack_bonus
        | none => .error (.attributeError "attack_bonus")
    match base_attack_bonus with
    | .ok b => .ok (b + scores.mod stat_dependency)
    | .error e => .error e

/-! ## Hit points and mana points (`Character._set_up_hit_points_and_mana_points`) -/

/-- The `_base_mana_points` class dict `{Priest: 16, Mage: 19}`. -/
def baseManaPoints : CharClass → Option Int
  | .priest => some 16
  | .mage => some 19
  | _ => none

/-- The `_bonus_mana_points` class dict `{-4..0: 0, 1: 1, 2: 4, 3: 9, 4: 16}`;
`none` models the `KeyError` on any other key. -/
def bonusManaPoints (m : Int) : Option Int :=
  if -4 ≤ m ∧ m ≤ 0 then some 0
  else if m = 1 then some 1
  else if m = 2 then some 4
  else if m = 3 then some 9
  else if m = 4 then some 16
  else none

/-- The `_hitpoint_base` class dict `{Warrior: 40, Priest: 30, Thief: 30, Mage: 20}`. -/
def hitpointBase : CharClass → Int
  | .warrior => 40
  | .priest => 30
  | .thief => 30
  | .mage => 20

/-- The hit-point and mana-point state a Character ends up with; the magic key
stat is `none` when the source stores the empty string. -/
structure HPMana where
  hit_point_maximum : Int
  current_hit_points : Int
  mana_point_maximum : Int
  current_mana_points : Int
  magic_key_stat : Option StatName
deriving DecidableEq, Repr

/-- The tail of `_set_up_hit_points_and_mana_points` once the magic key stat
`ks` is settled: the bonus dict is indexed with the key-stat modifier inside
the branch taken, so a non-caster with explicit key stat and zero base mana
performs no lookup at all. -/
def manaFromKeyStat (cls : CharClass) (scores : AbilityScores) (base_mana_points : Int)
    (ks : StatName) (hp : Int) : Except Exc HPMana :=
  let magic_key_stat_mod := scores.mod ks
  if base_mana_points ≠ 0 then
    match bonusManaPoints magic_key_stat_mod with
    | some b =>
        .ok ⟨hp, hp, base_mana_points + b, base_mana_points + b, some ks⟩
    | none => .error (.keyError "magic_key_stat_mod")
  else
    match baseManaPoints cls with
    | some base =>
        match bonusManaPoints magic_key_stat_mod with
        | some b => .ok ⟨hp, hp, base + b, base + b, some ks⟩
        | none => .error (.keyError "magic_key_stat_mod")
    | none => .ok ⟨hp, hp, 0, 0, some ks⟩

/-- `Character._set_up_hit_points_and_mana_points`: hit points from the
argument if nonzero else the per-class base, plus 3x the constitution
modifier; an explicit magic key stat must be intelligence, wisdom or
charisma; with no explicit key stat a Priest gets wisdom, a Mage gets
intelligence, and anyone else gets zero mana and an empty key stat
immediately. -/
def setUpHitPointsAndManaPoints (cls : CharClass) (scores : AbilityScores)
    (base_hit_points : Int) (base_mana_points : Int) (magic_key_stat : Option StatName) :
    Except Exc HPMana :=
  let hp :=
    (if base_hit_points ≠ 0 then base_hit_points else hitpointBase cls) +
      statMod scores.constitution * 3
  match magic_key_stat with
  | some ks =>
      if ks = .intelligence ∨ ks = .wisdom ∨ ks = .charisma then
        manaFromKeyStat cls scores base_mana_points ks hp
      else
        .error (.internal "magic_key_stat argument not recognized")
  | none =>
      match cls with
      | .priest => manaFromKeyStat cls scores base_mana_points .wisdom hp
      | .mage => manaFromKeyStat cls scores base_mana_points .intelligence hp
      | _ => .ok ⟨hp, hp, 0, 0, none⟩

/-! ## Creature and corpse conversion -/

/-- The fields of a `Creature` that `convert_to_corpse` reads: its
`Ini_Entry` identity (internal name, title, the dead description) and the
`Character` inventory.  The remaining configuration and combat fields play no
part in the conversion. -/
structure Creature where
  internal_name : String
  title : String
  description : String
  description_dead : String
  inventory : MultiContents
deriving DecidableEq, Repr

/-- A `Corpse` container as built by `convert_to_corpse`: a `Container` with
`container_type='corpse'` whose embedded `Items_Multi_State` starts empty (no
compact `contents` expression is passed). -/
structure CorpseContainer where
  internal_name : String
  title : String
  description : String
  container_type : String
  contents : MultiContents
deriving DecidableEq, Repr

/-- `Creature.convert_to_corpse`: build a `Corpse` reusing the creature's
internal name, with the dead description, titled `"<title> corpse"`, then
`corpse.set` every inventory entry into its contents in iteration order. -/
def convert_to_corpse (c : Creature) : CorpseContainer :=
  { internal_name := c.internal_name
    title := c.title ++ " corpse"
    description := c.description_dead
    container_type := "corpse"
    contents := c.inventory.foldl (fun acc e => dictSet acc e.1 e.2) [] }

theorem dictSet_eq_append_of_not_mem {β : Type} (d : List (String × β)) (k : String) (v : β)
    (h : k ∉ dictKeys d) : dictSet d k v = d ++ [(k, v)] := by
  induction d with
  | nil => rfl
  | cons e rest ih =>
      obtain ⟨k', v'⟩ := e
      simp only [dictKeys, List.map_cons, List.mem_cons, not_or] at h
      simp only [dictSet, if_neg (Ne.symm h.1), List.cons_append, List.cons.injEq, true_and]
      exact ih h.2

/-- Re-inserting the entries of a dict with distinct keys into an empty dict
reproduces the dict. -/
theorem foldl_dictSet_of_nodup {β : Type} (d : List (String × β))
    (hnd : (dictKeys d).Nodup) :
    d.foldl (fun acc e => dictSet acc e.1 e.2) [] = d := by
  suffices h : ∀ (acc : List (String × β)), (∀ k ∈ dictKeys d, k ∉ dictKeys acc) →
      d.foldl (fun acc e => dictSet acc e.1 e.2) acc = acc ++ d by
    simpa using h [] (by simp [dictKeys])
  induction d with
  | nil => simp
  | cons e rest ih =>
      intro acc hdisj
      obtain ⟨k, v⟩ := e
      simp only [List.foldl_cons]
      rw [dictSet_eq_append_of_not_mem acc k v
        (hdisj k (by simp [dictKeys]))]
      rw [ih (List.nodup_cons.mp hnd).2 (acc ++ [(k, v)]) ?_, List.append_assoc]
      · rfl
      · intro k₀ hk₀
        simp only [dictKeys, List.map_append, List.mem_append, List.map_cons,
          List.map_nil, List.mem_singleton, not_or]
        refine ⟨hdisj k₀ (by
          simp only [dictKeys, List.map_cons, List.mem_cons]
          exact Or.inr hk₀), ?_⟩
        intro hk
        subst hk
        exact (List.nodup_cons.mp hnd).1 hk₀

/-! ## Doors and the door store -/

/-- Python `str.split(sep)` with a non-empty separator, by structural
recursion on an explicit fuel so that concrete evaluation reduces inside the
kernel; the fuel passed in is the character count plus one, which the scan
can never exhaust, so the fuel-out fallback is unreachable. -/
def pySplitAux (sep : List Char) : Nat → List Char → List Char → List (List Char)
  | 0, s, acc => [acc.reverse ++ s]
  | _ + 1, [], acc => [acc.reverse]
  | fuel + 1, c :: rest, acc =>
      if sep.isPrefixOf (c :: rest) then
        acc.reverse :: pySplitAux sep fuel (List.drop sep.length (c :: rest)) []
      else
        pySplitAux sep fuel rest (c :: acc)

/-- Python `s.split(sep)` for a non-empty separator. -/
def pySplit (s sep : String) : List String :=
  (pySplitAux sep.toList (s.length + 1) s.toList []).map List.asString

/-- A `Door` configuration entry; `_linked_rooms_internal_names` is derived
from the internal name by splitting on `'_x_'` (a Python `set`, modelled by
the split list with list membership).  `title`, `description`, `is_closed`
and `closable` play no part in any verified claim and are omitted. -/
structure Door where
  internal_name : String
  door_type : String
  is_locked : Bool
deriving DecidableEq, Repr

/-- The two linked room internal names recovered from the door's internal
name. -/
def Door.linkedRooms (d : Door) : List String := pySplit d.internal_name "_x_"

/-- `Door.other_room_internal_name`: an `Internal_Exception` when the given
name is not one of the linked rooms; otherwise the first linked name different
from it, and `none` (the Python method falling off the end) when there is no
such name. -/
def Door.other_room_internal_name (d : Door) (room_internal_name : String) :
    Except Exc (Option String) :=
  if room_internal_name ∈ d.linkedRooms then
    .ok ((d.linkedRooms.filter (· ≠ room_internal_name)).head?)
  else
    .error (.internal ("room internal name " ++ room_internal_name ++
      " not one of the two rooms linked by this door object"))

/-- `Door.subclassing_factory`: dispatch on `door_type` to
Doorway/Wooden_Door/Iron_Door (tags with no behavioural difference), an
`Internal_Exception` on any other tag. -/
def doorSubclassingFactory (internal_name : String) (door_type : String)
    (is_locked : Bool) : Except Exc Door :=
  if door_type = "doorway" ∨ door_type = "wooden_door" ∨ door_type = "iron_door" then
    .ok ⟨internal_name, door_type, is_locked⟩
  else
    .error (.internal ("unrecognized door type: " ++ door_type))

/-- The two-level `_contents` dict of a `Doors_State`: outer room name →
(inner room name → door). -/
abbrev DoorsContents := List (String × List (String × Door))

/-- Store a door under the two-level key, with `defaultdict(dict)` semantics
for the outer level. -/
def doorsStateSet (c : DoorsContents) (first second : String) (d : Door) : DoorsContents :=
  match dictLookup c first with
  | none => dictSet c first [(second, d)]
  | some inner => dictSet c first (dictSet inner second d)

/-- `Doors_State.contains`. -/
def doorsStateContains (c : DoorsContents) (first second : String) : Bool :=
  match dictLookup c first with
  | none => false
  | some inner => (dictLookup inner second).isSome

/-- `Doors_State.get`: `KeyError` at either level when absent. -/
def doorsStateGet (c : DoorsContents) (first second : String) : Except Exc Door :=
  match dictLookup c first with
  | none => .error (.keyError first)
  | some inner =>
      match dictLookup inner second with
      | none => .error (.keyError second)
      | some d => .ok d

/-- `Doors_State.__init__`: each section's internal name is split on `'_x_'`
into the two room names *in the order they appear there* (a `ValueError`
escapes when the split does not give exactly two parts), and the door built by
the factory is filed under that order — no sorting is applied, although the
method's docstring says the two names are sorted. -/
def doorsStateInit (dict_of_dicts : List (String × String × Bool)) :
    Except Exc DoorsContents :=
  dict_of_dicts.foldlM
    (fun c entry => do
      let (door_internal_name, door_type, is_locked) := entry
      match pySplit door_internal_name "_x_" with
      | [first_room_internal_name, second_room_internal_name] => do
          let door ← doorSubclassingFactory door_internal_name door_type is_locked
          pure (doorsStateSet c first_room_internal_name second_room_internal_name door)
      | _ => throw (.valueError "unpacking the split internal name"))
    []

/-- Python string `<`: lexicographic comparison of code points. -/
def pyStrLtChars : List Char → List Char → Bool
  | [], [] => false
  | [], _ :: _ => true
  | _ :: _, [] => false
  | a :: as, b :: bs =>
      if a.toNat < b.toNat then true
      else if b.toNat < a.toNat then false
      else pyStrLtChars as bs

/-- `str.lower` on one character; the names this model compares are ASCII. -/
def pyToLowerChar (c : Char) : Char :=
  if 65 ≤ c.toNat ∧ c.toNat ≤ 90 then Char.ofNat (c.toNat + 32) else c

/-- `str.lower` (ASCII). -/
def pyToLower (s : String) : String := (s.toList.map pyToLowerChar).asString

/-- The ordered pair a `Room` uses to address the door store
(`Room.__init__`): the two names sorted lexicographically (Python
`sorted`), reversed when the lexicographically-first one lowercases to the
exit marker, so the exit marker is always the second key. -/
def canonicalRoomPair (a b : String) : String × String :=
  let sorted_pair := if pyStrLtChars b.toList a.toList then (b, a) else (a, b)
  if pyToLower sorted_pair.1 = "exit" then (sorted_pair.2, sorted_pair.1) else sorted_pair

/-! ## Rooms and the room-graph store -/

/-- A `Room` with its four directional door attributes (each `None` or a
`Door` copy); the occupant/floor-item fields play no part in the movement
claims and are omitted. -/
structure Room where
  internal_name : String
  north_door : Option Door
  east_door : Option Door
  south_door : Option Door
  west_door : Option Door
deriving DecidableEq, Repr

/-- `Rooms_State`: all rooms keyed by internal name plus the movement
cursor. -/
structure RoomsState where
  rooms_objs : List (String × Room)
  room_cursor : String
deriving DecidableEq, Repr

/-- `Rooms_State.move`: the pairwise guard rejects two or more direction
flags with an `Internal_Exception`; the `if/elif` chain then binds the exit
attribute name, leaving it unbound when every flag is false; the cursor room
is fetched (`self.cursor`, a `KeyError` when the cursor key is missing)
before the unbound name would be read; a missing door is a
`Bad_Command_Exception` naming the direction, a locked door an
`Internal_Exception`; otherwise the cursor becomes the internal name of the
room fetched under the name on the other side of the door. -/
def RoomsState.move (st : RoomsState) (north west south east : Bool) :
    Except Exc RoomsState :=
  if (north && west) || (north && south) || (north && east) || (west && south) ||
      (west && east) || (south && east) then
    .error (.internal ("move() must receive only *one* True argument of the four keys " ++
      "north, south, east and west"))
  else
    let selection : Option ((Room → Option Door) × String × String) :=
      if north then some (Room.north_door, "north_door", "NORTH")
      else if west then some (Room.west_door, "west_door", "WEST")
      else if south then some (Room.south_door, "south_door", "SOUTH")
      else if east then some (Room.east_door, "east_door", "EAST")
      else none
    match dictLookup st.rooms_objs st.room_cursor with
    | none => .error (.keyError st.room_cursor)
    | some cursor_room =>
        match selection with
        | none => .error (.unboundLocal "exit_name")
        | some (door_attr, exit_name, exit_key) =>
            match door_attr cursor_room with
            | none => .error (.badCommand "MOVE" ("This room has no <" ++ exit_key ++ "> exit."))
            | some door =>
                if door.is_locked then
                  .error (.internal ("exiting " ++ cursor_room.internal_name ++ " via the " ++
                    exit_name.replace "_" " " ++ ": door is locked"))
                else
                  match door.other_room_internal_name cursor_room.internal_name with
                  | .error e => .error e
                  | .ok none => .error (.keyError "None")
                  | .ok (some other_room_internal_name) =>
                      match dictLookup st.rooms_objs other_room_internal_name with
                      | none => .error (.keyError other_room_internal_name)
                      | some new_room_dest =>
                          .ok { st with room_cursor := new_room_dest.internal_name }

/-- The four compass directions of a move request. -/
inductive Dir where
  | north | west | south | east
deriving DecidableEq, Repr

/-- `move` with exactly the one flag for `d` set true. -/
def RoomsState.moveDir (st : RoomsState) : Dir → Except Exc RoomsState
  | .north => st.move true false false false
  | .west => st.move false true false false
  | .south => st.move false false true false
  | .east => st.move false false false true

/-- The door attribute a direction selects. -/
def dirDoor : Dir → Room → Option Door
  | .north => Room.north_door
  | .west => Room.west_door
  | .south => Room.south_door
  | .east => Room.east_door

/-- The `exit_key` placed in the command-failure message. -/
def dirKey : Dir → String
  | .north => "NORTH"
  | .west => "WEST"
  | .south => "SOUTH"
  | .east => "EAST"

/-- The `exit_name` local variable for a direction. -/
def dirExitName : Dir → String
  | .north => "north_door"
  | .west => "west_door"
  | .south => "south_door"
  | .east => "east_door"

/-! ## `Ini_Entry.__eq__`

`__eq__` tests `isinstance(other, type(self))` and then compares every
attribute named in `self.__slots__` with `getattr(_, attr, None)`.  The class
of an entry is modelled by a tag mirroring the `Ini_Entry` side of the Python
class hierarchy, `isinstance` by membership in the method-resolution list of
ancestors, and the attribute dictionary by an association list of sniffed
values. -/

/-- The `Ini_Entry`-derived classes of the module. -/
inductive ClassTag where
  | iniEntry
  | item | equippableItem
  | armor | coin | potion | key | oddment | shield | wand | weapon
  | door | doorway | woodenDoor | ironDoor
  | container | chest | corpse
  | room
  | creature
deriving DecidableEq, Fintype, Repr

/-- The `Ini_Entry`-side ancestors (the class itself included) of each class,
in method-resolution order. -/
def ClassTag.ancestors : ClassTag → List ClassTag
  | .iniEntry => [.iniEntry]
  | .item => [.item, .iniEntry]
  | .equippableItem => [.equippableItem, .item, .iniEntry]
  | .armor => [.armor, .equippableItem, .item, .iniEntry]
  | .coin => [.coin, .item, .iniEntry]
  | .potion => [.potion, .item, .iniEntry]
  | .key => [.key, .item, .iniEntry]
  | .oddment => [.oddment, .item, .iniEntry]
  | .shield => [.shield, .equippableItem, .item, .iniEntry]
  | .wand => [.wand, .equippableItem, .item, .iniEntry]
  | .weapon => [.weapon, .equippableItem, .item, .iniEntry]
  | .door => [.door, .iniEntry]
  | .doorway => [.doorway, .door, .iniEntry]
  | .woodenDoor => [.woodenDoor, .door, .iniEntry]
  | .ironDoor => [.ironDoor, .door, .iniEntry]
  | .container => [.container, .iniEntry]
  | .chest => [.chest, .container, .iniEntry]
  | .corpse => [.corpse, .container, .iniEntry]
  | .room => [.room, .iniEntry]
  | .creature => [.creature, .iniEntry]

/-- `isinstance(obj, target)` for an object of class `objCls`. -/
def pyIsinstance (objCls target : ClassTag) : Bool :=
  target ∈ objCls.ancestors

/-- The classes the program actually instantiates: every construction goes
through a `subclassing_factory` (or instantiates a leaf class directly), so
the abstract bases `Ini_Entry`, `Item`, `Equippable_Item`, `Door` and
`Container` never occur as the class of a live entry. -/
def ClassTag.isConcreteVariant : ClassTag → Bool
  | .iniEntry | .item | .equippableItem | .door | .container => false
  | _ => true

/-- A sniffed attribute value (`Ini_Entry.__init__` turns the raw text into
booleans, ints or text; an unset declared attribute is `None`). -/
inductive PyVal where
  | none
  | bool (b : Bool)
  | int (n : Int)
  | str (s : String)
deriving DecidableEq, Repr

/-- The `__slots__` tuple Python resolves for `self.__slots__`: the nearest
class in method-resolution order that declares one (`Item` for every item
variant, `Door` for every door variant, `Container` for chest and corpse). -/
def ClassTag.slots : ClassTag → List String
  | .iniEntry => []
  | .item | .equippableItem | .armor | .coin | .potion | .key | .oddment
  | .shield | .wand | .weapon =>
      ["internal_name", "title", "description", "weight", "value", "damage",
       "attack_bonus", "armor_bonus", "item_type", "warrior_can_use", "thief_can_use",
       "priest_can_use", "mage_can_use", "hit_points_recovered", "mana_points_recovered"]
  | .door | .doorway | .woodenDoor | .ironDoor =>
      ["internal_name", "title", "description", "door_type", "is_locked", "is_closed",
       "closable", "_linked_rooms_internal_names", "is_exit"]
  | .container | .chest | .corpse =>
      ["internal_name", "title", "description", "is_locked", "is_closed", "container_type"]
  | .room =>
      ["internal_name", "title", "description", "north_door", "west_door", "south_door",
       "east_door", "occupant", "item", "is_entrance", "is_exit", "_containers_state",
       "_creatures_state", "_doors_state", "_items_state", "creature_here",
       "container_here", "items_here"]
  | .creature =>
      ["internal_name", "character_name", "description", "character_class", "species",
       "_strength", "_dexterity", "_constitution", "_intelligence", "_wisdom",
       "_charisma", "_items_state", "_base_hit_points", "_weapon_equipped",
       "_armor_equipped", "_shield_equipped"]

/-- A configuration entry for the equality model: its Python class and its
attribute dictionary. -/
structure IniEntryObj where
  cls : ClassTag
  attrs : List (String × PyVal)
deriving DecidableEq, Repr

/-- `getattr(e, attr, None)`. -/
def getattrDefaultNone (e : IniEntryObj) (attr : String) : PyVal :=
  (dictLookup e.attrs attr).getD .none

/-- `Ini_Entry.__eq__`: `isinstance(other, type(self))`, then every attribute
of `self.__slots__` compared between the two objects with default `None`. -/
def iniEntryEq (a b : IniEntryObj) : Bool :=
  pyIsinstance b.cls a.cls &&
    a.cls.slots.all (fun attr => getattrDefaultNone a attr == getattrDefaultNone b attr)

/-! ## Concrete sample data (drawn from the test fixtures) used by witnesses -/

/-- The `Gold_Coin` item of the sample data (fields not used by any claim are
abbreviated). -/
def goldCoin : Item :=
  ⟨"Gold_Coin", "gold coin", "A small shiny gold coin.", "coin", 0, ""⟩

/-- An inventory holding two gold coins. -/
def sampleInventory : MultiContents := [("Gold_Coin", (2, goldCoin))]

/-! ## C3: `add_one` / `remove_one` on the multi-quantity store -/

/-- **C3.** In the multi-quantity item store, for every internal name and
item: `add_one` on an absent name stores the item with quantity 1, and on a
present name increments its quantity by 1; `remove_one` on a present name
with quantity 1 deletes the entry outright, on a present name with quantity
greater than 1 decrements it by 1, and on an absent name fails with a
missing-key signal.  Well-formedness (each entry keyed by its item's internal
name, distinct keys) is the dict discipline the program maintains. -/
theorem C3_items_multi_state_spec (m : MultiContents) (name : String) (item : Item)
    (hwf : wfMulti m) :
    (dictLookup m name = none →
      Items_Multi_State.add_one m name item = .ok (dictSet m name (1, item)) ∧
      dictLookup (dictSet m name (1, item)) name = some (1, item)) ∧
    (∀ q it, dictLookup m name = some (q, it) →
      Items_Multi_State.add_one m name item = .ok (dictSet m name (q + 1, it)) ∧
      dictLookup (dictSet m name (q + 1, it)) name = some (q + 1, it)) ∧
    (∀ it, dictLookup m name = some (1, it) →
      Items_Multi_State.remove_one m name = .ok (dictErase m name) ∧
      dictLookup (dictErase m name) name = none) ∧
    (∀ q it, dictLookup m name = some (q, it) → 1 < q →
      Items_Multi_State.remove_one m name = .ok (dictSet m name (q - 1, it)) ∧
      dictLookup (dictSet m name (q - 1, it)) name = some (q - 1, it)) ∧
    (dictLookup m name = none →
      Items_Multi_State.remove_one m name = .error (.keyError name)) := by
  have hc := contains_eq_lookup_isSome m name hwf
  refine ⟨?_, ?_, ?_, ?_, ?_⟩
  · intro hnone
    rw [hnone] at hc
    exact ⟨by simp [Items_Multi_State.add_one, hc], dictLookup_set_self m name (1, item)⟩
  · intro q it hsome
    rw [hsome] at hc
    exact ⟨by simp [Items_Multi_State.add_one, hc, hsome],
      dictLookup_set_self m name (q + 1, it)⟩
  · intro it hsome
    exact ⟨by simp [Items_Multi_State.remove_one, hsome],
      dictLookup_erase_self m name hwf.2⟩
  · intro q it hsome hq
    have hne : q ≠ 1 := by omega
    exact ⟨by simp [Items_Multi_State.remove_one, hsome, hne],
      dictLookup_set_self m name (q - 1, it)⟩
  · intro hnone
    simp [Items_Multi_State.remove_one, hnone]

/-- Witness for C3 at the sample inventory: a second coin added on a present
name raises the quantity from 2 to 3. -/
theorem C3_witness :
    wfMulti sampleInventory ∧
    Items_Multi_State.add_one sampleInventory "Gold_Coin" goldCoin =
      .ok (dictSet sampleInventory "Gold_Coin" (2 + 1, goldCoin)) :=
  ⟨by decide,
   ((C3_items_multi_state_spec sampleInventory "Gold_Coin" goldCoin (by decide)).2.1
      2 goldCoin (by decide)).1⟩

/-! ## C4: `Character.drop_item` -/

/-- **C4.** `Character.drop_item(item, qty)` fails with a missing-key signal
(leaving the inventory untouched: the error is raised before any mutation)
exactly when the held quantity is zero; when the item is held in quantity
`hq ≠ 0` and `qty = hq` the entry is deleted; when `qty ≠ hq` the stored
quantity becomes `hq - qty` with no upper-bound validation, so requesting
more than held leaves a negative stored quantity. -/
theorem C4_drop_item_spec (inv : MultiContents) (item : Item) (qty : Int)
    (hwf : wfMulti inv) :
    (dictLookup inv item.internal_name = none →
      Character.drop_item inv item qty = .error (.keyError item.internal_name)) ∧
    (∀ it, dictLookup inv item.internal_name = some (0, it) →
      Character.drop_item inv item qty = .error (.keyError item.internal_name)) ∧
    (∀ hq it, dictLookup inv item.internal_name = some (hq, it) → hq ≠ 0 → qty = hq →
      Character.drop_item inv item qty = .ok (dictErase inv item.internal_name) ∧
      dictLookup (dictErase inv item.internal_name) item.internal_name = none) ∧
    (∀ hq it, dictLookup inv item.internal_name = some (hq, it) → hq ≠ 0 → qty ≠ hq →
      Character.drop_item inv item qty =
        .ok (dictSet inv item.internal_name (hq - qty, item)) ∧
      dictLookup (dictSet inv item.internal_name (hq - qty, item)) item.internal_name =
        some (hq - qty, item) ∧
      (hq < qty → hq - qty < 0)) := by
  have hc := contains_eq_lookup_isSome inv item.internal_name hwf
  refine ⟨?_, ?_, ?_, ?_⟩
  · intro hnone
    rw [hnone] at hc
    simp [Character.drop_item, Character.item_have_qty, hc]
  · intro it hsome
    rw [hsome] at hc
    simp [Character.drop_item, Character.item_have_qty, hc, hsome]
  · intro hq it hsome hne hqty
    rw [hsome] at hc
    subst hqty
    refine ⟨?_, dictLookup_erase_self inv item.internal_name hwf.2⟩
    simp [Character.drop_item, Character.item_have_qty, hc, hsome,
      Items_Multi_State.delete, hne]
  · intro hq it hsome hne hqty
    rw [hsome] at hc
    refine ⟨?_, dictLookup_set_self inv item.internal_name (hq - qty, item),
      fun hlt => by omega⟩
    have hqty' : hq ≠ qty := fun hh => hqty hh.symm
    simp [Character.drop_item, Character.item_have_qty, hc, hsome,
      Items_Multi_State.set, hne, hqty']

/-- Witness for C4 at the sample inventory: dropping 5 of the 2 held coins
succeeds and stores the negative quantity `2 - 5`. -/
theorem C4_witness :
    Character.drop_item sampleInventory goldCoin 5 =
      .ok (dictSet sampleInventory "Gold_Coin" (2 - 5, goldCoin)) ∧
    (2 - 5 : Int) < 0 :=
  ⟨((C4_drop_item_spec sampleInventory goldCoin 5 (by decide)).2.2.2
      2 goldCoin (by decide) (by decide) (by decide)).1,
   by decide⟩

/-! ## C9: `Character.pick_up_item` -/

/-- **C9.** The claim as frozen states that an explicit quantity other than 1
sets the stored quantity to the explicit absolute quantity given; this is
refuted at an inventory already holding 2 coins, where picking up quantity 3
stores 5 (the code computes `qty + have_qty`), not 3. -/
theorem C9_counterexample :
    Character.pick_up_item sampleInventory goldCoin 3 =
      .ok [("Gold_Coin", (5, goldCoin))] ∧ (5 : Int) ≠ 3 :=
  ⟨rfl, by decide⟩

/-- **C9 amended.** `Character.pick_up_item(item, qty)` with quantity 1
delegates to `add_one` (insert at 1 when absent, increment by 1 when
present); with an explicit quantity other than 1 it stores
`qty + have_qty` — the requested quantity *added to* the prior held quantity
(which equals the explicit quantity only when the item was absent). -/
theorem C9_pick_up_item_spec (inv : MultiContents) (item : Item) (qty : Int)
    (hwf : wfMulti inv) :
    (qty = 1 → dictLookup inv item.internal_name = none →
      Character.pick_up_item inv item qty =
        .ok (dictSet inv item.internal_name (1, item))) ∧
    (qty = 1 → ∀ q it, dictLookup inv item.internal_name = some (q, it) →
      Character.pick_up_item inv item qty =
        .ok (dictSet inv item.internal_name (q + 1, it))) ∧
    (qty ≠ 1 → dictLookup inv item.internal_name = none →
      Character.pick_up_item inv item qty =
        .ok (dictSet inv item.internal_name (qty, item))) ∧
    (qty ≠ 1 → ∀ q it, dictLookup inv item.internal_name = some (q, it) →
      Character.pick_up_item inv item qty =
        .ok (dictSet inv item.internal_name (qty + q, item))) := by
  have hc := contains_eq_lookup_isSome inv item.internal_name hwf
  refine ⟨?_, ?_, ?_, ?_⟩
  · intro h1 hnone
    rw [hnone] at hc
    simp [Character.pick_up_item, Character.item_have_qty, hc, h1,
      Items_Multi_State.add_one]
  · intro h1 q it hsome
    rw [hsome] at hc
    simp [Character.pick_up_item, Character.item_have_qty, hc, h1, hsome,
      Items_Multi_State.add_one]
  · intro hne hnone
    rw [hnone] at hc
    simp [Character.pick_up_item, Character.item_have_qty, hc, hne,
      Items_Multi_State.set]
  · intro hne q it hsome
    rw [hsome] at hc
    simp [Character.pick_up_item, Character.item_have_qty, hc, hne, hsome,
      Items_Multi_State.set]

/-- Witness for the amended C9 at the sample inventory: picking up 3 coins on
top of 2 held stores `3 + 2`. -/
theorem C9_witness :
    Character.pick_up_item sampleInventory goldCoin 3 =
      .ok (dictSet sampleInventory "Gold_Coin" (3 + 2, goldCoin)) :=
  (C9_pick_up_item_spec sampleInventory goldCoin 3 (by decide)).2.2.2
    (by decide) 2 goldCoin (by decide)

/-! ## C7: mana points -/

/-- **C7.** For a Priest or Mage, maximum and current mana points equal the
base mana (the explicit argument when nonzero, else the per-class default 16
for Priest / 19 for Mage) plus the bonus looked up from the magic-key-stat
modifier in the table mapping −4..0 to 0, 1 to 1, 2 to 4, 3 to 9 and 4 to 16
(`bonusManaPoints`), whether the key stat is the class default (wisdom /
intelligence) or an explicit valid override; a Warrior or Thief with no
explicit base mana gets zero maximum and current mana points.  Hypotheses
require the modifier to be a key of the bonus table, which is where the code
would raise a `KeyError`. -/
theorem C7_mana_points_spec (scores : AbilityScores)
    (base_hit_points base_mana_points : Int) :
    (∀ b, bonusManaPoints (statMod scores.wisdom) = some b →
      setUpHitPointsAndManaPoints .priest scores base_hit_points base_mana_points none =
        .ok ⟨(if base_hit_points ≠ 0 then base_hit_points else hitpointBase .priest) +
               statMod scores.constitution * 3,
             (if base_hit_points ≠ 0 then base_hit_points else hitpointBase .priest) +
               statMod scores.constitution * 3,
             (if base_mana_points ≠ 0 then base_mana_points else 16) + b,
             (if base_mana_points ≠ 0 then base_mana_points else 16) + b,
             some .wisdom⟩) ∧
    (∀ b, bonusManaPoints (statMod scores.intelligence) = some b →
      setUpHitPointsAndManaPoints .mage scores base_hit_points base_mana_points none =
        .ok ⟨(if base_hit_points ≠ 0 then base_hit_points else hitpointBase .mage) +
               statMod scores.constitution * 3,
             (if base_hit_points ≠ 0 then base_hit_points else hitpointBase .mage) +
               statMod scores.constitution * 3,
             (if base_mana_points ≠ 0 then base_mana_points else 19) + b,
             (if base_mana_points ≠ 0 then base_mana_points else 19) + b,
             some .intelligence⟩) ∧
    (∀ cls, (cls = CharClass.priest ∨ cls = CharClass.mage) →
      ∀ ks, (ks = StatName.intelligence ∨ ks = StatName.wisdom ∨ ks = StatName.charisma) →
      ∀ b, bonusManaPoints (scores.mod ks) = some b →
      setUpHitPointsAndManaPoints cls scores base_hit_points base_mana_points (some ks) =
        .ok ⟨(if base_hit_points ≠ 0 then base_hit_points else hitpointBase cls) +
               statMod scores.constitution * 3,
             (if base_hit_points ≠ 0 then base_hit_points else hitpointBase cls) +
               statMod scores.constitution * 3,
             (if base_mana_points ≠ 0 then base_mana_points
              else if cls = CharClass.priest then 16 else 19) + b,
             (if base_mana_points ≠ 0 then base_mana_points
              else if cls = CharClass.priest then 16 else 19) + b,
             some ks⟩) ∧
    (∀ cls, (cls = CharClass.warrior ∨ cls = CharClass.thief) →
      ∀ mks, (mks = Option.none ∨ mks = some StatName.intelligence ∨
              mks = some StatName.wisdom ∨ mks = some StatName.charisma) →
      setUpHitPointsAndManaPoints cls scores base_hit_points 0 mks =
        .ok ⟨(if base_hit_points ≠ 0 then base_hit_points else hitpointBase cls) +
               statMod scores.constitution * 3,
             (if base_hit_points ≠ 0 then base_hit_points else hitpointBase cls) +
               statMod scores.constitution * 3,
             0, 0, mks⟩) := by
  refine ⟨?_, ?_, ?_, ?_⟩
  · intro b hb
    by_cases hbm : base_mana_points = 0 <;>
      simp [setUpHitPointsAndManaPoints, manaFromKeyStat, AbilityScores.mod, hb, hbm,
        baseManaPoints]
  · intro b hb
    by_cases hbm : base_mana_points = 0 <;>
      simp [setUpHitPointsAndManaPoints, manaFromKeyStat, AbilityScores.mod, hb, hbm,
        baseManaPoints]
  · intro cls hcls ks hks b hb
    rcases hcls with rfl | rfl <;> rcases hks with rfl | rfl | rfl <;>
      by_cases hbm : base_mana_points = 0 <;>
        simp [setUpHitPointsAndManaPoints, manaFromKeyStat, hb, hbm, baseManaPoints]
  · intro cls hcls mks hmks
    rcases hcls with rfl | rfl <;> rcases hmks with rfl | rfl | rfl | rfl <;>
      simp [setUpHitPointsAndManaPoints, manaFromKeyStat, baseManaPoints]

/-- The ability scores of a sample Mage with intelligence 16 (key-stat
modifier 3). -/
def sampleMageScores : AbilityScores := ⟨10, 10, 10, 16, 10, 10⟩

/-- Witness for C7: a Mage with key-stat modifier 3 and no explicit base mana
gets 19 + 9 = 28 maximum and current mana points. -/
theorem C7_witness :
    setUpHitPointsAndManaPoints .mage sampleMageScores 0 0 none =
      .ok ⟨20, 20, 28, 28, some .intelligence⟩ := by
  have h := (C7_mana_points_spec sampleMageScores 0 0).2.1 9 (by decide)
  simpa using h

/-! ## C5: the character-level `attack_bonus` property -/

/-- The `Magic_Wand` item of the sample data. -/
def magicWand : Item :=
  ⟨"Magic_Wand", "magic wand", "A palpably magical wand.", "wand", 3, "2d12+3"⟩

/-- The `Magic_Sword` item of the sample data. -/
def magicSword : Item :=
  ⟨"Magic_Sword", "magic sword", "A magic sword.", "weapon", 3, "1d12+3"⟩

/-- **C5** counterexample.  The claim as frozen states that `attack_bonus`
fails exactly when neither a weapon nor a wand is equipped and otherwise
returns the wand-preferring bonus for any class; but a Warrior with only a
wand equipped fails with the internal-consistency error, because the guard
only accepts a wand when the class is Mage. -/
theorem C5_counterexample :
    (Equipment.mk Option.none (some magicWand)).wand.isSome = true ∧
    characterAttackBonus .warrior sampleMageScores ⟨Option.none, some magicWand⟩ =
      .error (.internal ("The character does not have a weapon equipped; " ++
        "no valid value for attack_bonus can be computed.")) :=
  ⟨rfl, rfl⟩

/-- **C5 amended.** The character-level `attack_bonus` fails with an
internal-consistency error exactly when no weapon is equipped and it is not
the case that the class is Mage with a wand equipped.  When it succeeds, a
Mage uses the wand's attack bonus if a wand is equipped and the weapon's
otherwise, while the other three classes always use the weapon's attack
bonus (never the wand's); the class-dependent stat modifier is added:
strength for Warrior, Priest and a Mage with a weapon equipped, dexterity
for Thief, intelligence for a Mage without a weapon. -/
theorem C5_attack_bonus_spec (cls : CharClass) (scores : AbilityScores) (eqp : Equipment) :
    (¬(eqp.weapon.isSome = true ∨ (cls = CharClass.mage ∧ eqp.wand.isSome = true)) →
      characterAttackBonus cls scores eqp =
        .error (.internal ("The character does not have a weapon equipped; " ++
          "no valid value for attack_bonus can be computed."))) ∧
    (∀ wd, cls = CharClass.mage → eqp.wand = some wd →
      characterAttackBonus cls scores eqp =
        .ok (wd.attack_bonus +
          scores.mod (if eqp.weapon.isSome then .strength else .intelligence))) ∧
    (∀ wp, cls = CharClass.mage → eqp.wand = none → eqp.weapon = some wp →
      characterAttackBonus cls scores eqp = .ok (wp.attack_bonus + statMod scores.strength)) ∧
    (∀ wp, (cls = CharClass.warrior ∨ cls = CharClass.priest) → eqp.weapon = some wp →
      characterAttackBonus cls scores eqp = .ok (wp.attack_bonus + statMod scores.strength)) ∧
    (∀ wp, cls = CharClass.thief → eqp.weapon = some wp →
      characterAttackBonus cls scores eqp = .ok (wp.attack_bonus + statMod scores.dexterity)) := by
  refine ⟨?_, ?_, ?_, ?_, ?_⟩
  · intro hguard
    simp [characterAttackBonus, hguard]
  · intro wd hcls hwand
    subst hcls
    cases hw : eqp.weapon with
    | none =>
        simp [characterAttackBonus, attackOrDamageStatDependency, hwand, hw,
          AbilityScores.mod]
    | some wp =>
        simp [characterAttackBonus, attackOrDamageStatDependency, hwand, hw,
          AbilityScores.mod]
  · intro wp hcls hwand hweapon
    subst hcls
    simp [characterAttackBonus, attackOrDamageStatDependency, hwand, hweapon,
      AbilityScores.mod]
  · intro wp hcls hweapon
    rcases hcls with rfl | rfl <;>
      cases hw : eqp.wand with
      | none =>
          simp [characterAttackBonus, attackOrDamageStatDependency, hw, hweapon,
            AbilityScores.mod]
      | some wd =>
          simp [characterAttackBonus, attackOrDamageStatDependency, hw, hweapon,
            AbilityScores.mod]
  · intro wp hcls hweapon
    subst hcls
    cases hw : eqp.wand with
    | none =>
        simp [characterAttackBonus, attackOrDamageStatDependency, hw, hweapon,
          AbilityScores.mod]
    | some wd =>
        simp [characterAttackBonus, attackOrDamageStatDependency, hw, hweapon,
          AbilityScores.mod]

/-- Witness for the amended C5: a Mage with intelligence 16 holding only the
sample wand gets the wand's bonus 3 plus the intelligence modifier 3. -/
theorem C5_witness :
    characterAttackBonus .mage sampleMageScores ⟨Option.none, some magicWand⟩ =
      .ok (3 + 3) := by
  have h := (C5_attack_bonus_spec .mage sampleMageScores
    ⟨Option.none, some magicWand⟩).2.1 magicWand rfl rfl
  simpa using h

/-! ## C6: `Ini_Entry.__eq__` -/

/-- **C6.** For every pair of configuration-entry objects whose classes are
concrete variants (the only classes the program instantiates — every entry is
built by a `subclassing_factory` or a leaf-class constructor), equality holds
iff the two are the same concrete variant and every attribute declared in
`__slots__` compares equal; in particular `isinstance(other, type(self))`
collapses to class identity because no concrete variant is an ancestor of
another. -/
theorem C6_ini_entry_eq_spec (a b : IniEntryObj)
    (ha : a.cls.isConcreteVariant = true) (hb : b.cls.isConcreteVariant = true) :
    iniEntryEq a b = true ↔
      (a.cls = b.cls ∧
        ∀ attr ∈ a.cls.slots, getattrDefaultNone a attr = getattrDefaultNone b attr) := by
  have hiso : ∀ c₁ c₂ : ClassTag, c₁.isConcreteVariant = true →
      c₂.isConcreteVariant = true → (pyIsinstance c₂ c₁ = true ↔ c₂ = c₁) := by decide
  constructor
  · intro h
    rw [iniEntryEq, Bool.and_eq_true] at h
    have hcc := (hiso a.cls b.cls ha hb).mp h.1
    refine ⟨hcc.symm, ?_⟩
    intro attr hattr
    have := List.all_eq_true.mp h.2 attr hattr
    simpa using this
  · rintro ⟨hcc, hattrs⟩
    rw [iniEntryEq, Bool.and_eq_true]
    refine ⟨(hiso a.cls b.cls ha hb).mpr hcc.symm, ?_⟩
    rw [List.all_eq_true]
    intro attr hattr
    simpa using hattrs attr hattr

/-- A sample armor entry. -/
def sampleArmorEntry : IniEntryObj :=
  ⟨.armor, [("internal_name", .str "Small_Leather_Armor"), ("title", .str "small leather armor"),
            ("armor_bonus", .int 2), ("item_type", .str "armor")]⟩

/-- Witness for C6: two armor entries with identical attributes compare
equal. -/
theorem C6_witness : iniEntryEq sampleArmorEntry sampleArmorEntry = true :=
  (C6_ini_entry_eq_spec sampleArmorEntry sampleArmorEntry (by decide) (by decide)).mpr
    ⟨rfl, fun _ _ => rfl⟩

/-! ## C8: `convert_to_corpse` -/

/-- **C8.** For every creature, `convert_to_corpse()` returns a Corpse whose
internal name equals the creature's internal name, whose title is the
creature's title followed by `" corpse"`, whose description is the creature's
dead description, and whose contents hold exactly the same entries (internal
names, quantities and item objects, in order) as the creature's inventory;
the inventory's keys are distinct because it is a Python dict. -/
theorem C8_convert_to_corpse_spec (c : Creature)
    (hnd : (dictKeys c.inventory).Nodup) :
    (convert_to_corpse c).internal_name = c.internal_name ∧
    (convert_to_corpse c).title = c.title ++ " corpse" ∧
    (convert_to_corpse c).description = c.description_dead ∧
    (convert_to_corpse c).container_type = "corpse" ∧
    (convert_to_corpse c).contents = c.inventory :=
  ⟨rfl, rfl, rfl, rfl, foldl_dictSet_of_nodup c.inventory hnd⟩

/-- The `Short_Sword` item of the sample data. -/
def shortSword : Item :=
  ⟨"Short_Sword", "short sword", "A smaller sword.", "weapon", 0, "1d8"⟩

/-- The sample creature `Kobold_Trysk` (the fields `convert_to_corpse`
reads). -/
def sampleCreature : Creature :=
  { internal_name := "Kobold_Trysk"
    title := "kobold"
    description := "This diminuitive draconic humanoid eyes you warily."
    description_dead := "This diminuitive draconic humanoid is recently slain."
    inventory := [("Short_Sword", (1, shortSword)), ("Gold_Coin", (30, goldCoin))] }

/-- Witness for C8 at the sample creature. -/
theorem C8_witness :
    (convert_to_corpse sampleCreature).internal_name = sampleCreature.internal_name ∧
    (convert_to_corpse sampleCreature).title = sampleCreature.title ++ " corpse" ∧
    (convert_to_corpse sampleCreature).description = sampleCreature.description_dead ∧
    (convert_to_corpse sampleCreature).container_type = "corpse" ∧
    (convert_to_corpse sampleCreature).contents = sampleCreature.inventory :=
  C8_convert_to_corpse_spec sampleCreature (by decide)

/-! ## C1 and C10: `Rooms_State.move` -/

/-- **C1.** With the cursor room present in the store: setting two or more
direction flags fails with the internal-consistency error before anything
else is examined; with exactly one flag set, a missing door in that direction
fails with the command failure naming the direction, a locked door fails
with an internal-consistency error, and an unlocked door whose internal name
links the cursor room to another stored room moves the cursor to that stored
room's internal name. -/
theorem C1_move_spec (st : RoomsState) (cursor_room : Room)
    (hcur : dictLookup st.rooms_objs st.room_cursor = some cursor_room) :
    (∀ n w s e : Bool,
      ((n && w) || (n && s) || (n && e) || (w && s) || (w && e) || (s && e)) = true →
      st.move n w s e = .error (.internal
        ("move() must receive only *one* True argument of the four keys " ++
          "north, south, east and west"))) ∧
    (∀ d : Dir, dirDoor d cursor_room = none →
      st.moveDir d = .error (.badCommand "MOVE"
        ("This room has no <" ++ dirKey d ++ "> exit."))) ∧
    (∀ d : Dir, ∀ door, dirDoor d cursor_room = some door → door.is_locked = true →
      st.moveDir d = .error (.internal
        ("exiting " ++ cursor_room.internal_name ++ " via the " ++
          (dirExitName d).replace "_" " " ++ ": door is locked"))) ∧
    (∀ d : Dir, ∀ door other dest, dirDoor d cursor_room = some door →
      door.is_locked = false →
      (door.linkedRooms = [cursor_room.internal_name, other] ∨
        door.linkedRooms = [other, cursor_room.internal_name]) →
      other ≠ cursor_room.internal_name →
      dictLookup st.rooms_objs other = some dest →
      st.moveDir d = .ok { st with room_cursor := dest.internal_name }) := by
  refine ⟨?_, ?_, ?_, ?_⟩
  · intro n w s e hg
    simp [RoomsState.move, hg]
  · intro d hdoor
    cases d <;>
      simp [RoomsState.moveDir, RoomsState.move, hcur, dirDoor, dirKey] at hdoor ⊢ <;>
      simp [hdoor]
  · intro d door hdoor hlock
    cases d <;>
      simp [RoomsState.moveDir, RoomsState.move, hcur, dirDoor, dirExitName] at hdoor ⊢ <;>
      simp [hdoor, hlock]
  · intro d door other dest hdoor hlock hlink hne hdest
    have hother : door.other_room_internal_name cursor_room.internal_name = .ok (some other) := by
      rcases hlink with hl | hl <;>
        simp [Door.other_room_internal_name, hl, hne, Ne.symm hne]
    cases d <;>
      simp [RoomsState.moveDir, RoomsState.move, hcur, dirDoor] at hdoor ⊢ <;>
      simp [hdoor, hlock, hother, hdest]

/-- The sample wooden door between rooms 1,1 and 2,1 (unlocked here). -/
def sampleDoor : Door := ⟨"Room_1,1_x_Room_2,1", "wooden_door", false⟩

/-- The sample entrance room with the sample door to the north. -/
def sampleRoomA : Room := ⟨"Room_1,1", some sampleDoor, none, none, none⟩

/-- The sample room north of the entrance. -/
def sampleRoomB : Room := ⟨"Room_2,1", none, none, none, none⟩

/-- A sample room-graph store with the cursor at the entrance room. -/
def sampleRoomsState : RoomsState :=
  ⟨[("Room_1,1", sampleRoomA), ("Room_2,1", sampleRoomB)], "Room_1,1"⟩

/-- Witness for C1: moving north through the sample unlocked door places the
cursor at the northern room's internal name. -/
theorem C1_witness :
    sampleRoomsState.moveDir .north =
      .ok { sampleRoomsState with room_cursor := "Room_2,1" } :=
  (C1_move_spec sampleRoomsState sampleRoomA (by decide)).2.2.2 .north sampleDoor
    "Room_2,1" sampleRoomB (by decide) (by decide) (Or.inl (by decide)) (by decide)
    (by decide)

/-- **C10.** Calling `move` with all four direction flags false passes the
multi-direction guard (which only rejects two or more flags), leaves the
`exit_name` local unbound, and — once the cursor room has been fetched —
fails with the unhandled name-binding error, which is neither a command
failure nor an internal-consistency error. -/
theorem C10_move_zero_direction_spec (st : RoomsState) (cursor_room : Room)
    (hcur : dictLookup st.rooms_objs st.room_cursor = some cursor_room) :
    st.move false false false false = .error (.unboundLocal "exit_name") ∧
    (∀ msg, Exc.unboundLocal "exit_name" ≠ .internal msg) ∧
    (∀ command msg, Exc.unboundLocal "exit_name" ≠ .badCommand command msg) := by
  refine ⟨?_, fun msg => by simp, fun command msg => by simp⟩
  simp [RoomsState.move, hcur]

/-- Witness for C10 at the sample room-graph store. -/
theorem C10_witness :
    sampleRoomsState.move false false false false =
      .error (.unboundLocal "exit_name") :=
  (C10_move_zero_direction_spec sampleRoomsState sampleRoomA (by decide)).1

/-! ## C2: canonical ordering in the door store -/

/-- A doors.ini section whose internal name lists the two room names in
reverse lexicographic order. -/
def unsortedDoorsIni : List (String × String × Bool) :=
  [("Room_2,1_x_Room_1,1", "wooden_door", false)]

/-- The door the store builds from that section. -/
def unsortedDoor : Door := ⟨"Room_2,1_x_Room_1,1", "wooden_door", false⟩

/-- The store contents that `Doors_State.__init__` produces from it. -/
def unsortedDoorsStore : DoorsContents := [("Room_2,1", [("Room_1,1", unsortedDoor)])]

/-- **C2.** The claim (and the `Doors_State.__init__` docstring) says every
door is filed under the canonically ordered pair — sorted lexicographically
with the exit marker forced into the second slot — so that lookups with the
canonical pair always succeed; but the constructor files each door under the
pair in the order it appears in the internal name without sorting.  Loading
the single door named `Room_2,1_x_Room_1,1` files it under
`("Room_2,1", "Room_1,1")`; the canonical pair is
`("Room_1,1", "Room_2,1")`, under which `contains` is false and `get`
raises `KeyError` — the lookup a `Room` performs would fail. -/
theorem C2_doors_state_not_canonical :
    doorsStateInit unsortedDoorsIni = .ok unsortedDoorsStore ∧
    canonicalRoomPair "Room_2,1" "Room_1,1" = ("Room_1,1", "Room_2,1") ∧
    doorsStateContains unsortedDoorsStore "Room_2,1" "Room_1,1" = true ∧
    doorsStateContains unsortedDoorsStore "Room_1,1" "Room_2,1" = false ∧
    doorsStateGet unsortedDoorsStore "Room_1,1" "Room_2,1" =
      .error (.keyError "Room_1,1") :=
  ⟨rfl, by decide, by decide, by decide, rfl⟩

end AdventureGame
